import Mathlib

/-!
# AI Social Factory — verification of the content-generation workflow layer

Shallow embedding of the parts of the repository that the verified
properties talk about:

* the workflow orchestrator contract (the Python backend behind
  `/api/v1/workflow/execute-direct` is not among the frontend sources, so it
  is modelled from the specification, §3–§8);
* `APIClient.executeWorkflow` and `APIClient.request` from
  `saas-frontend/js/api.js`;
* `escapeHtml` and the textarea-based entity decoding used by the copy
  buttons in `saas-frontend/js/studio.js`;
* the mock `loginUser` from the localStorage auth script.
-/

/-- Modelled from the spec: the supported target platforms (spec §3,
`platform: enum{instagram,tiktok,youtube,twitter,linkedin}`). -/
inductive Platform where
  | instagram
  | tiktok
  | youtube
  | twitter
  | linkedin
deriving DecidableEq

/-- Modelled from the spec: parsing the platform string a client sends into
the supported enum (spec §6, "platform: one of the supported enum values"). -/
def Platform.ofString (s : String) : Option Platform :=
  if s = "instagram" then some .instagram
  else if s = "tiktok" then some .tiktok
  else if s = "youtube" then some .youtube
  else if s = "twitter" then some .twitter
  else if s = "linkedin" then some .linkedin
  else none

/-- Modelled from the spec: per-step status (spec §3, `StepStatus`). -/
inductive StepStatus where
  | pending
  | running
  | completed
  | skipped
  | failed
deriving DecidableEq

/-- Modelled from the spec: overall run status; §4.1 adds
`completed_with_errors` to the §3 enum for runs that finished with a failed
optional step. -/
inductive OverallStatus where
  | running
  | completed
  | completed_with_errors
  | failed
deriving DecidableEq

/-- Modelled from the spec: a workflow request (spec §3, `WorkflowRequest`). -/
structure WorkflowRequest where
  topic : String
  platform : Platform
  includeVideo : Bool
  requireApproval : Bool
deriving DecidableEq

/-- Modelled from the spec: one script variant returned by the Script
Generator adapter (spec §4.2, `generateScript`). -/
structure ScriptVariant where
  variantId : Nat
  text : String
  style : String
  durationEstimate : Nat
deriving DecidableEq

/-- Modelled from the spec: the Caption Generator adapter result
(spec §4.2, `generateCaption`). -/
structure CaptionResult where
  caption : String
  hashtags : List String
  characterCount : Nat
deriving DecidableEq

/-- Modelled from the spec: the Video Generator adapter result
(spec §4.2, `generateVideo`). -/
structure VideoResult where
  videoId : String
  videoUrl : String
  generationTimeSeconds : Nat
deriving DecidableEq

/-- Modelled from the spec: the Publisher adapter result (spec §4.2). -/
structure PublishResult where
  publishId : String
deriving DecidableEq

/-- Modelled from the spec: the outcome of the approval gate; a timeout is
resolved as a rejection (spec §5, "if the timeout elapses, resolve as
rejected/failed"). -/
inductive ApprovalOutcome where
  | approved
  | rejected
deriving DecidableEq

/-- Modelled from the spec: the outcomes of the external adapter calls for
one run. The adapters are external collaborators (spec §4.2), so one run is
parameterised by what each call would return; a `.error` value is an
external-call failure already classified with its message. -/
structure AdapterOutcomes where
  script : Except String (List ScriptVariant)
  caption : Except String CaptionResult
  video : Except String VideoResult
  approval : ApprovalOutcome
  publishCall : Except String PublishResult

/-- Modelled from the spec: the results bag (spec §3, `ResultsBag`); a
field's absence means the producing step did not produce output. -/
structure ResultsBag where
  script : Option String := none
  caption : Option String := none
  hashtags : Option (List String) := none
  videoUrl : Option String := none
  publishId : Option String := none
deriving DecidableEq

/-- Modelled from the spec: the per-step status mapping of one run
(spec §4.1 fixed step sequence). -/
structure StepStatuses where
  script_generation : StepStatus
  caption_generation : StepStatus
  video_generation : StepStatus
  approval_gate : StepStatus
  publish : StepStatus
deriving DecidableEq

/-- Modelled from the spec: request-validation failures, surfaced before a
run is created (spec §7, `ValidationError`). -/
inductive ValidationError where
  | emptyTopic
  | unsupportedPlatform
deriving DecidableEq

/-- Modelled from the spec: a workflow run (spec §3, `WorkflowRun`); the
opaque id is passed in by the caller. -/
structure WorkflowRun where
  id : String
  request : WorkflowRequest
  steps : StepStatuses
  results : ResultsBag
  overallStatus : OverallStatus

/-- Modelled from the spec: the run returned when script generation fails —
the hard dependency aborts the remaining pipeline, every later step is
`skipped` and the overall status is `failed` (spec §4.1 step 1). A success
that returns no variants leaves no canonical script to select, so it is
treated the same way. -/
def failedScriptRun (runId : String) (req : WorkflowRequest) : WorkflowRun :=
  { id := runId
    request := req
    steps := { script_generation := .failed
               caption_generation := .skipped
               video_generation := .skipped
               approval_gate := .skipped
               publish := .skipped }
    results := {}
    overallStatus := .failed }

/-- Modelled from the spec: the caption step (spec §4.1 step 2) — status,
caption field and hashtags field. On failure the step is `failed` but the
pipeline continues. -/
def captionStep (ad : AdapterOutcomes) : StepStatus × Option String × Option (List String) :=
  match ad.caption with
  | .ok c => (.completed, some c.caption, some c.hashtags)
  | .error _ => (.failed, none, none)

/-- Modelled from the spec: the video step (spec §4.1 step 3) — runs only
when `includeVideo` is true; on failure, continue without a video. -/
def videoStep (ad : AdapterOutcomes) (includeVideo : Bool) : StepStatus × Option String :=
  if includeVideo then
    match ad.video with
    | .ok v => (.completed, some v.videoUrl)
    | .error _ => (.failed, none)
  else (.skipped, none)

/-- Modelled from the spec: the approval gate (spec §4.1 step 4) — runs only
when `requireApproval` is true; the second component records whether the
approval was rejected (which skips publishing and fails the run). -/
def approvalStep (ad : AdapterOutcomes) (requireApproval : Bool) : StepStatus × Bool :=
  if requireApproval then
    match ad.approval with
    | .approved => (.completed, false)
    | .rejected => (.failed, true)
  else (.skipped, false)

/-- Modelled from the spec: the publish step (spec §4.1 step 5) — skipped
when the approval gate rejected the run, otherwise attempted; a failure is
recorded but does not invalidate earlier steps. -/
def publishStep (ad : AdapterOutcomes) (approvalRejected : Bool) : StepStatus × Option String :=
  if approvalRejected then (.skipped, none)
  else
    match ad.publishCall with
    | .ok p => (.completed, some p.publishId)
    | .error _ => (.failed, none)

/-- Modelled from the spec: overall-status derivation (spec §4.1) —
`failed` if approval was rejected (the script-failure case is handled by
`failedScriptRun`), `completed_with_errors` if an optional step failed but
the pipeline otherwise finished, `completed` otherwise. -/
def deriveOverall (capSt vidSt pubSt : StepStatus) (approvalRejected : Bool) : OverallStatus :=
  if approvalRejected then .failed
  else if capSt = .failed ∨ vidSt = .failed ∨ pubSt = .failed then .completed_with_errors
  else .completed

/-- Modelled from the spec: the run produced when script generation
succeeded with canonical variant `v` (the first variant, spec §4.1 step 1):
the remaining steps run in their fixed order with their failures contained,
and the overall status is derived at the end. -/
def normalRun (ad : AdapterOutcomes) (runId : String) (req : WorkflowRequest)
    (v : ScriptVariant) : WorkflowRun :=
  let cap := captionStep ad
  let vid := videoStep ad req.includeVideo
  let app := approvalStep ad req.requireApproval
  let pub := publishStep ad app.2
  { id := runId
    request := req
    steps := { script_generation := .completed
               caption_generation := cap.1
               video_generation := vid.1
               approval_gate := app.1
               publish := pub.1 }
    results := { script := some v.text
                 caption := cap.2.1
                 hashtags := cap.2.2
                 videoUrl := vid.2
                 publishId := pub.2 }
    overallStatus := deriveOverall cap.1 vid.1 pub.1 app.2 }

/-- Modelled from the spec: the workflow orchestrator core. The Python
backend that serves `/api/v1/workflow/execute-direct` is not among the
frontend sources of this repository, so the orchestrator is reconstructed
from spec §4.1/§7: validate the request first (empty topic is a
`ValidationError`, no run is created), then run the fixed step sequence
script → caption → (optional) video → (optional) approval → publish, with
the first variant selected as the canonical script, per-step failures
contained, and the aggregate status derived at the end. Every adapter
outcome yields a `WorkflowRun`; only validation produces an error. -/
def executeWorkflow (ad : AdapterOutcomes) (runId : String) (req : WorkflowRequest) :
    Except ValidationError WorkflowRun :=
  if req.topic = "" then .error .emptyTopic
  else
    match ad.script with
    | .error _ => .ok (failedScriptRun runId req)
    | .ok [] => .ok (failedScriptRun runId req)
    | .ok (v :: _) => .ok (normalRun ad runId req v)

/-- The JSON body built by `APIClient.executeWorkflow` in
`saas-frontend/js/api.js` (lines 111–121). -/
structure WorkflowRequestBody where
  topic : String
  platform : String
  include_video : Bool
  require_approval : Bool
deriving DecidableEq

/-- `APIClient.executeWorkflow` from `saas-frontend/js/api.js`: an omitted
optional argument takes its JS default (`platform = 'instagram'`,
`includeVideo = true`, `requireApproval = true`); omission is modelled as
`none`. -/
def APIClient.executeWorkflow (topic : String) (platform : Option String)
    (includeVideo requireApproval : Option Bool) : WorkflowRequestBody :=
  { topic := topic
    platform := platform.getD "instagram"
    include_video := includeVideo.getD true
    require_approval := requireApproval.getD true }

/-- Modelled from the spec: the submit boundary (spec §6) — the request body
sent by the client is validated (supported platform, then the orchestrator's
own topic validation) and handed to the orchestrator core, which is not
among the frontend sources. -/
def submitWorkflow (ad : AdapterOutcomes) (runId : String) (body : WorkflowRequestBody) :
    Except ValidationError WorkflowRun :=
  match Platform.ofString body.platform with
  | none => .error .unsupportedPlatform
  | some p =>
      executeWorkflow ad runId
        { topic := body.topic
          platform := p
          includeVideo := body.include_video
          requireApproval := body.require_approval }

/-- Whether a submission was accepted (produced a run) rather than rejected
by validation. -/
def submissionAccepted (e : Except ValidationError WorkflowRun) : Bool :=
  match e with
  | .ok _ => true
  | .error _ => false

/-- The overall status of an accepted submission, `none` for a rejected
one. -/
def okOverall (e : Except ValidationError WorkflowRun) : Option OverallStatus :=
  match e with
  | .ok run => some run.overallStatus
  | .error _ => none

/-- One selected step status of an accepted submission, `none` for a
rejected one. -/
def okStep (select : StepStatuses → StepStatus) (e : Except ValidationError WorkflowRun) :
    Option StepStatus :=
  match e with
  | .ok run => some (select run.steps)
  | .error _ => none

/-- The caption field of an accepted submission's results bag. -/
def okCaption (e : Except ValidationError WorkflowRun) : Option (Option String) :=
  match e with
  | .ok run => some run.results.caption
  | .error _ => none

/-- A `fetch` response as `APIClient.request` observes it: the `ok` flag,
status data, and the optional `detail` field of the parsed JSON body
(`none` when the field is absent or the body is not JSON, matching the
`.catch(() => ({}))` fallback in `api.js`). -/
structure FetchResponse where
  ok : Bool
  status : Nat
  statusText : String
  detail : Option String
deriving DecidableEq

/-- What the `fetch` call inside `APIClient.request` did: either it
resolved to a response, or it rejected with an error message (a plain
network failure rejects with the message `Failed to fetch`). -/
inductive FetchOutcome where
  | success (response : FetchResponse)
  | networkError (message : String)

/-- The template `HTTP status statusText` used by `APIClient.request`
when the body carries no usable `detail`. -/
def httpStatusMessage (r : FetchResponse) : String :=
  "HTTP " ++ toString r.status ++ ": " ++ r.statusText

/-- The message thrown for a non-ok response in `api.js` line 45:
`error.detail || template`, so an absent or empty (falsy) `detail` falls
back to the HTTP template. -/
def nonOkMessage (r : FetchResponse) : String :=
  match r.detail with
  | some d => if d = "" then httpStatusMessage r else d
  | none => httpStatusMessage r

/-- The fixed help text from `api.js` line 54. -/
def cannotConnectMessage : String :=
  "Cannot connect to backend server. Make sure the backend is running at http://localhost:8000 and you are accessing the frontend via http://localhost:3000 (not file://)"

/-- `APIClient.request` from `saas-frontend/js/api.js` (lines 30–59): a
non-ok response throws `detail || template`; the catch block then rewrites
any caught error whose message is exactly `Failed to fetch` — including one
thrown by the non-ok branch inside the same `try` — into the fixed
cannot-connect help text, and rethrows everything else unchanged. -/
def APIClient.request (o : FetchOutcome) : Except String FetchResponse :=
  let attempt : Except String FetchResponse :=
    match o with
    | .networkError msg => .error msg
    | .success r => if r.ok then .ok r else .error (nonOkMessage r)
  match attempt with
  | .ok r => .ok r
  | .error msg => .error (if msg = "Failed to fetch" then cannotConnectMessage else msg)

/-- The non-breaking-space character, the fourth character that `innerHTML`
serialization escapes in text content. -/
def nbspChar : Char := Char.ofNat 160

/-- The escaping performed by `escapeHtml` in `studio.js` (lines 418–422):
`div.textContent = text; return div.innerHTML` serializes the text node,
replacing the ampersand, the angle brackets and the non-breaking space by
their named character references and leaving every other character as is. -/
def escapeChar (c : Char) : List Char :=
  if c = '&' then ['&', 'a', 'm', 'p', ';']
  else if c = '<' then ['&', 'l', 't', ';']
  else if c = '>' then ['&', 'g', 't', ';']
  else if c = nbspChar then ['&', 'n', 'b', 's', 'p', ';']
  else [c]

/-- `escapeHtml` over the character list of the input string. -/
def escapeHtmlList : List Char → List Char
  | [] => []
  | c :: t => escapeChar c ++ escapeHtmlList t

/-- `escapeHtml` from `studio.js`. -/
def escapeHtml (s : String) : String := String.mk (escapeHtmlList s.data)

/-- The U+FFFD replacement character that the HTML tokenizer substitutes
for a NUL character. -/
def replacementChar : Char := Char.ofNat 0xFFFD

/-- The HTML input-stream preprocessing that runs before tokenization when
text is assigned to `innerHTML`: a CRLF pair and a lone CR are both
normalized to a single LF. -/
def normalizeNewlines : List Char → List Char
  | [] => []
  | '\r' :: '\n' :: t => '\n' :: normalizeNewlines t
  | '\r' :: t => '\n' :: normalizeNewlines t
  | c :: t => c :: normalizeNewlines t

/-- RCDATA tokenization of the textarea contents: character references are
decoded (only the references `escapeHtml` can emit are modelled), a NUL
character is replaced by U+FFFD, and every other character stays
literal. -/
def decodeRcdataList : List Char → List Char
  | [] => []
  | '&' :: 'a' :: 'm' :: 'p' :: ';' :: t => '&' :: decodeRcdataList t
  | '&' :: 'l' :: 't' :: ';' :: t => '<' :: decodeRcdataList t
  | '&' :: 'g' :: 't' :: ';' :: t => '>' :: decodeRcdataList t
  | '&' :: 'n' :: 'b' :: 's' :: 'p' :: ';' :: t => nbspChar :: decodeRcdataList t
  | c :: t => (if c = Char.ofNat 0 then replacementChar else c) :: decodeRcdataList t

/-- The decoding performed by the copy buttons in `studio.js`
(`copyScriptText` / `copyCaptionText`, lines 400–416): assigning the text
as a textarea's `innerHTML` runs the HTML parser, which first applies the
input-stream newline normalization and then tokenizes in RCDATA mode;
reading `value` yields the decoded text. -/
def decodeHtmlList (l : List Char) : List Char :=
  decodeRcdataList (normalizeNewlines l)

/-- The textarea-based decoding over strings. -/
def decodeHtml (s : String) : String := String.mk (decodeHtmlList s.data)

/-- A user record in the `aisf_users` localStorage array, as the auth
script stores it (`createUser`); the usage counters may be missing on old
records, which `loginUser` defaults with `|| 0`. -/
structure StoredUser where
  id : String
  email : String
  password : String
  fullName : String
  plan : String
  createdAt : String
  videosGenerated : Option Nat
  scriptsGenerated : Option Nat
deriving DecidableEq

/-- The session user object `loginUser` builds and stores under
`aisf_user`. -/
structure SessionUser where
  id : String
  email : String
  fullName : String
  plan : String
  createdAt : String
  videosGenerated : Nat
  scriptsGenerated : Nat
deriving DecidableEq

/-- The localStorage entries the auth script touches. -/
structure LocalStorage where
  aisf_users : List StoredUser
  aisf_token : Option String := none
  aisf_user : Option SessionUser := none
  aisf_remember : Option String := none
deriving DecidableEq

/-- `loginUser` from the auth script (lines 205–234): find the first stored
user whose email and password both match; on a match, write the token, the
session user and (when `remember` is set) the remember flag and return the
session user; otherwise return `null` without touching the store. The
random `generateMockToken()` value is passed in as `token`. -/
def loginUser (email password : String) (remember : Bool) (token : String)
    (st : LocalStorage) : Option SessionUser × LocalStorage :=
  match st.aisf_users.find? (fun u => u.email == email && u.password == password) with
  | some u =>
      let sessionUser : SessionUser :=
        { id := u.id
          email := u.email
          fullName := u.fullName
          plan := u.plan
          createdAt := u.createdAt
          videosGenerated := u.videosGenerated.getD 0
          scriptsGenerated := u.scriptsGenerated.getD 0 }
      (some sessionUser,
        { st with
            aisf_token := some token
            aisf_user := some sessionUser
            aisf_remember := if remember then some "true" else st.aisf_remember })
  | none => (none, st)

/-! ## Helper lemmas about the orchestrator steps -/

theorem captionStep_completed_iff (ad : AdapterOutcomes) :
    (captionStep ad).1 = .completed ↔ ((captionStep ad).2.1).isSome := by
  cases h : ad.caption <;> simp [captionStep, h]

theorem captionStep_ne_skipped (ad : AdapterOutcomes) :
    (captionStep ad).1 ≠ .skipped := by
  cases h : ad.caption <;> simp [captionStep, h]

theorem videoStep_completed_iff (ad : AdapterOutcomes) (b : Bool) :
    (videoStep ad b).1 = .completed ↔ ((videoStep ad b).2).isSome := by
  cases b
  · simp [videoStep]
  · cases h : ad.video <;> simp [videoStep, h]

theorem videoStep_skipped_none (ad : AdapterOutcomes) (b : Bool) :
    (videoStep ad b).1 = .skipped → (videoStep ad b).2 = none := by
  cases b
  · simp [videoStep]
  · cases h : ad.video <;> simp [videoStep, h]

theorem videoStep_true_ne_skipped (ad : AdapterOutcomes) :
    (videoStep ad true).1 ≠ .skipped := by
  cases h : ad.video <;> simp [videoStep, h]

theorem publishStep_completed_iff (ad : AdapterOutcomes) (rej : Bool) :
    (publishStep ad rej).1 = .completed ↔ ((publishStep ad rej).2).isSome := by
  cases rej
  · cases h : ad.publishCall <;> simp [publishStep, h]
  · simp [publishStep]

theorem publishStep_skipped_none (ad : AdapterOutcomes) (rej : Bool) :
    (publishStep ad rej).1 = .skipped → (publishStep ad rej).2 = none := by
  cases rej
  · cases h : ad.publishCall <;> simp [publishStep, h]
  · simp [publishStep]

theorem publishStep_false_ne_skipped (ad : AdapterOutcomes) :
    (publishStep ad false).1 ≠ .skipped := by
  cases h : ad.publishCall <;> simp [publishStep, h]

theorem approvalStep_not_rejected (ad : AdapterOutcomes) (ra : Bool)
    (h : ra = false ∨ ad.approval = .approved) :
    (approvalStep ad ra).2 = false := by
  rcases h with h | h
  · simp [approvalStep, h]
  · cases ra <;> simp [approvalStep, h]

/-- Inversion principle for the orchestrator: an accepted run is either the
aborted-pipeline run (script generation failed or returned no variants) or
the normal run on the first script variant. -/
theorem executeWorkflow_ok_inv (ad : AdapterOutcomes) (runId : String)
    (req : WorkflowRequest) (run : WorkflowRun)
    (h : executeWorkflow ad runId req = .ok run) :
    (run = failedScriptRun runId req ∧
      ((∃ e, ad.script = .error e) ∨ ad.script = .ok [])) ∨
    (∃ v vs, ad.script = .ok (v :: vs) ∧ run = normalRun ad runId req v) := by
  unfold executeWorkflow at h
  by_cases ht : req.topic = ""
  · rw [if_pos ht] at h
    exact absurd h (by simp)
  · rw [if_neg ht] at h
    cases hs : ad.script with
    | error e =>
      rw [hs] at h
      exact Or.inl ⟨(Except.ok.inj h).symm, Or.inl ⟨e, rfl⟩⟩
    | ok l =>
      rw [hs] at h
      cases l with
      | nil => exact Or.inl ⟨(Except.ok.inj h).symm, Or.inr rfl⟩
      | cons v vs => exact Or.inr ⟨v, vs, rfl, (Except.ok.inj h).symm⟩

/-- Totality of the orchestrator on non-empty topics, for every adapter
outcome. -/
theorem executeWorkflow_ok_of_topic_ne (ad : AdapterOutcomes) (runId : String)
    (req : WorkflowRequest) (h : req.topic ≠ "") :
    ∃ run, executeWorkflow ad runId req = .ok run := by
  unfold executeWorkflow
  rw [if_neg h]
  cases ad.script with
  | error e => exact ⟨_, rfl⟩
  | ok l => cases l with
    | nil => exact ⟨_, rfl⟩
    | cons v vs => exact ⟨_, rfl⟩

/-- Rejection of the orchestrator on the empty topic, for every adapter
outcome. -/
theorem executeWorkflow_empty_topic (ad : AdapterOutcomes) (runId : String)
    (p : Platform) (iv ra : Bool) :
    executeWorkflow ad runId
      { topic := "", platform := p, includeVideo := iv, requireApproval := ra } =
      .error .emptyTopic := by
  unfold executeWorkflow
  simp

/-! ## Helper lemmas for the HTML escape / decode round trip -/

theorem escapeChar_amp : escapeChar '&' = ['&', 'a', 'm', 'p', ';'] := rfl

theorem escapeChar_lt : escapeChar '<' = ['&', 'l', 't', ';'] := rfl

theorem escapeChar_gt : escapeChar '>' = ['&', 'g', 't', ';'] := rfl

theorem escapeChar_nbsp : escapeChar nbspChar = ['&', 'n', 'b', 's', 'p', ';'] := rfl

theorem escapeChar_other (c : Char) (h1 : c ≠ '&') (h2 : c ≠ '<') (h3 : c ≠ '>')
    (h4 : c ≠ nbspChar) : escapeChar c = [c] := by
  simp [escapeChar, h1, h2, h3, h4]

theorem decodeRcdataList_amp (t : List Char) :
    decodeRcdataList ('&' :: 'a' :: 'm' :: 'p' :: ';' :: t) = '&' :: decodeRcdataList t := rfl

theorem decodeRcdataList_lt (t : List Char) :
    decodeRcdataList ('&' :: 'l' :: 't' :: ';' :: t) = '<' :: decodeRcdataList t := rfl

theorem decodeRcdataList_gt (t : List Char) :
    decodeRcdataList ('&' :: 'g' :: 't' :: ';' :: t) = '>' :: decodeRcdataList t := rfl

theorem decodeRcdataList_nbsp (t : List Char) :
    decodeRcdataList ('&' :: 'n' :: 'b' :: 's' :: 'p' :: ';' :: t) =
      nbspChar :: decodeRcdataList t := rfl

/-- A character other than the ampersand can never start a character
reference, so when it is not NUL the tokenizer passes it through. -/
theorem decodeRcdataList_plain (c : Char) (t : List Char) (h : c ≠ '&')
    (h0 : c ≠ Char.ofNat 0) :
    decodeRcdataList (c :: t) = c :: decodeRcdataList t := by
  unfold decodeRcdataList
  split <;> simp_all
  exact decodeRcdataList.eq_def _

/-- A character other than CR passes through the newline normalization. -/
theorem normalizeNewlines_plain (c : Char) (t : List Char) (h : c ≠ '\r') :
    normalizeNewlines (c :: t) = c :: normalizeNewlines t := by
  unfold normalizeNewlines
  split <;> simp_all
  exact normalizeNewlines.eq_def _

/-- The newline normalization fixes every CR-free character list. -/
theorem normalizeNewlines_eq_self (l : List Char) (h : '\r' ∉ l) :
    normalizeNewlines l = l := by
  induction l with
  | nil => rfl
  | cons c t ih =>
    rw [List.mem_cons] at h
    push_neg at h
    rw [normalizeNewlines_plain c t (fun e => h.1 e.symm), ih h.2]

/-- Escaping a non-CR character never introduces a CR. -/
theorem escapeChar_no_cr (c : Char) (h : c ≠ '\r') : '\r' ∉ escapeChar c := by
  by_cases h1 : c = '&'
  · subst h1
    decide
  by_cases h2 : c = '<'
  · subst h2
    decide
  by_cases h3 : c = '>'
  · subst h3
    decide
  by_cases h4 : c = nbspChar
  · subst h4
    decide
  rw [escapeChar_other c h1 h2 h3 h4]
  simp
  exact fun e => h e.symm

/-- Escaping a CR-free character list yields a CR-free list. -/
theorem escapeHtmlList_no_cr (l : List Char) (h : '\r' ∉ l) :
    '\r' ∉ escapeHtmlList l := by
  induction l with
  | nil => simp [escapeHtmlList]
  | cons c t ih =>
    rw [List.mem_cons] at h
    push_neg at h
    show '\r' ∉ escapeChar c ++ escapeHtmlList t
    rw [List.mem_append]
    push_neg
    exact ⟨escapeChar_no_cr c (fun e => h.1 e.symm), ih h.2⟩

/-- The RCDATA tokenization inverts the escaper on NUL-free character
lists. -/
theorem decodeRcdata_escape (l : List Char) (h : Char.ofNat 0 ∉ l) :
    decodeRcdataList (escapeHtmlList l) = l := by
  induction l with
  | nil => rfl
  | cons c t ih =>
    rw [List.mem_cons] at h
    push_neg at h
    show decodeRcdataList (escapeChar c ++ escapeHtmlList t) = c :: t
    by_cases h1 : c = '&'
    · subst h1
      rw [escapeChar_amp, List.cons_append, List.cons_append, List.cons_append,
        List.cons_append, List.singleton_append, decodeRcdataList_amp, ih h.2]
    by_cases h2 : c = '<'
    · subst h2
      rw [escapeChar_lt, List.cons_append, List.cons_append, List.cons_append,
        List.singleton_append, decodeRcdataList_lt, ih h.2]
    by_cases h3 : c = '>'
    · subst h3
      rw [escapeChar_gt, List.cons_append, List.cons_append, List.cons_append,
        List.singleton_append, decodeRcdataList_gt, ih h.2]
    by_cases h4 : c = nbspChar
    · subst h4
      rw [escapeChar_nbsp, List.cons_append, List.cons_append, List.cons_append,
        List.cons_append, List.cons_append, List.singleton_append, decodeRcdataList_nbsp, ih h.2]
    rw [escapeChar_other c h1 h2 h3 h4, List.singleton_append,
      decodeRcdataList_plain c _ h1 (fun e => h.1 e.symm), ih h.2]

/-- The full textarea decode inverts the escaper on character lists without
CR and without NUL. -/
theorem decode_escape_list (l : List Char) (hcr : '\r' ∉ l)
    (hnul : Char.ofNat 0 ∉ l) :
    decodeHtmlList (escapeHtmlList l) = l := by
  unfold decodeHtmlList
  rw [normalizeNewlines_eq_self _ (escapeHtmlList_no_cr l hcr), decodeRcdata_escape l hnul]

/-! ## Sample data for witnesses and counterexamples -/

/-- A concrete script variant for witness runs. -/
def sampleVariant : ScriptVariant :=
  { variantId := 1
    text := "Hook: launch day. Body: our product ships today."
    style := "energetic"
    durationEstimate := 30 }

/-- Adapter outcomes in which every external call succeeds. -/
def adAllOk : AdapterOutcomes :=
  { script := .ok [sampleVariant]
    caption := .ok { caption := "Launching today!", hashtags := ["launch", "startup"], characterCount := 16 }
    video := .ok { videoId := "vid-1", videoUrl := "/videos/vid-1.mp4", generationTimeSeconds := 300 }
    approval := .approved
    publishCall := .ok { publishId := "post-1" } }

/-- A valid request with video and without the approval gate. -/
def reqFull : WorkflowRequest :=
  { topic := "Product Launch", platform := .instagram, includeVideo := true, requireApproval := false }

/-- The same request with `includeVideo = false`. -/
def reqNoVideo : WorkflowRequest := { reqFull with includeVideo := false }

/-- The same request with the approval gate required. -/
def reqApproval : WorkflowRequest := { reqFull with requireApproval := true }

/-- Adapter outcomes in which script generation fails. -/
def adScriptFail : AdapterOutcomes := { adAllOk with script := .error "Gemini API quota exceeded" }

/-- Adapter outcomes in which only caption generation fails. -/
def adCaptionFail : AdapterOutcomes := { adAllOk with caption := .error "caption backend down" }

/-- Adapter outcomes in which caption generation fails and the approval
gate rejects the run. -/
def adCaptionFailRejected : AdapterOutcomes := { adCaptionFail with approval := .rejected }

/-! ## Claim theorems -/

/-- Claim C1: for every workflow request submitted with `includeVideo =
false`, the returned WorkflowRun has the `video_generation` step's status
equal to `skipped` and the results bag's `videoUrl` field absent. -/
theorem workflow_no_video_skips_video_step (ad : AdapterOutcomes) (runId : String)
    (req : WorkflowRequest) (run : WorkflowRun)
    (hv : req.includeVideo = false)
    (h : executeWorkflow ad runId req = .ok run) :
    run.steps.video_generation = .skipped ∧ run.results.videoUrl = none := by
  rcases executeWorkflow_ok_inv ad runId req run h with ⟨hr, _⟩ | ⟨v, vs, hs, hr⟩
  · subst hr
    exact ⟨rfl, rfl⟩
  · subst hr
    constructor
    · show (videoStep ad req.includeVideo).1 = .skipped
      rw [hv]
      rfl
    · show (videoStep ad req.includeVideo).2 = none
      rw [hv]
      rfl

/-- Witness for C1 at a concrete request with `includeVideo = false` and
all adapters succeeding. -/
theorem workflow_no_video_skips_video_step_witness :
    reqNoVideo.includeVideo = false ∧
    executeWorkflow adAllOk "run-c1" reqNoVideo =
      .ok (normalRun adAllOk "run-c1" reqNoVideo sampleVariant) ∧
    ((normalRun adAllOk "run-c1" reqNoVideo sampleVariant).steps.video_generation = .skipped ∧
      (normalRun adAllOk "run-c1" reqNoVideo sampleVariant).results.videoUrl = none) :=
  ⟨rfl, rfl, workflow_no_video_skips_video_step adAllOk "run-c1" reqNoVideo _ rfl rfl⟩

/-- Claim C2: in every workflow run whose script-generation step failed,
the overall status is `failed` and every subsequent step
(caption, video, approval gate, publish) is `skipped`. -/
theorem script_failure_fails_run (ad : AdapterOutcomes) (runId : String)
    (req : WorkflowRequest) (run : WorkflowRun)
    (h : executeWorkflow ad runId req = .ok run)
    (hs : run.steps.script_generation = .failed) :
    run.overallStatus = .failed ∧
    run.steps.caption_generation = .skipped ∧
    run.steps.video_generation = .skipped ∧
    run.steps.approval_gate = .skipped ∧
    run.steps.publish = .skipped := by
  rcases executeWorkflow_ok_inv ad runId req run h with ⟨hr, _⟩ | ⟨v, vs, hsc, hr⟩
  · subst hr
    exact ⟨rfl, rfl, rfl, rfl, rfl⟩
  · subst hr
    exact absurd (show StepStatus.completed = .failed from hs) (by decide)

/-- Witness for C2 at a concrete request whose script adapter fails. -/
theorem script_failure_fails_run_witness :
    executeWorkflow adScriptFail "run-c2" reqFull = .ok (failedScriptRun "run-c2" reqFull) ∧
    (failedScriptRun "run-c2" reqFull).steps.script_generation = .failed ∧
    ((failedScriptRun "run-c2" reqFull).overallStatus = .failed ∧
      (failedScriptRun "run-c2" reqFull).steps.caption_generation = .skipped ∧
      (failedScriptRun "run-c2" reqFull).steps.video_generation = .skipped ∧
      (failedScriptRun "run-c2" reqFull).steps.approval_gate = .skipped ∧
      (failedScriptRun "run-c2" reqFull).steps.publish = .skipped) :=
  ⟨rfl, rfl, script_failure_fails_run adScriptFail "run-c2" reqFull _ rfl rfl⟩

/-- Counterexample to claim C3 as stated: with script generation
succeeding, caption generation failing, and the approval gate rejecting
the run, the overall status is `failed` — not `completed_with_errors` —
and `publish` is `skipped`. -/
theorem caption_failure_claim_counterexample :
    okStep (fun s => s.script_generation) (executeWorkflow adCaptionFailRejected "run-c3" reqApproval) = some .completed ∧
    okStep (fun s => s.caption_generation) (executeWorkflow adCaptionFailRejected "run-c3" reqApproval) = some .failed ∧
    okOverall (executeWorkflow adCaptionFailRejected "run-c3" reqApproval) = some .failed ∧
    okOverall (executeWorkflow adCaptionFailRejected "run-c3" reqApproval) ≠ some .completed_with_errors ∧
    okStep (fun s => s.publish) (executeWorkflow adCaptionFailRejected "run-c3" reqApproval) = some .skipped :=
  ⟨rfl, rfl, rfl, by decide, rfl⟩

/-- Claim C3 (amended): if script generation succeeded, caption generation
failed, and the approval gate did not reject the run (approval not
required, or approved), then the overall status is `completed_with_errors`,
the caption field is absent, the video step is still attempted whenever
`includeVideo` is true, and the publish step is still attempted. -/
theorem caption_failure_completed_with_errors (ad : AdapterOutcomes) (runId : String)
    (req : WorkflowRequest) (run : WorkflowRun) (e : String)
    (hcap : ad.caption = .error e)
    (happ : req.requireApproval = false ∨ ad.approval = .approved)
    (hscript : run.steps.script_generation = .completed)
    (h : executeWorkflow ad runId req = .ok run) :
    run.overallStatus = .completed_with_errors ∧
    run.results.caption = none ∧
    (req.includeVideo = true → run.steps.video_generation ≠ .skipped) ∧
    run.steps.publish ≠ .skipped := by
  rcases executeWorkflow_ok_inv ad runId req run h with ⟨hr, _⟩ | ⟨v, vs, hsc, hr⟩
  · subst hr
    exact absurd (show StepStatus.failed = .completed from hscript) (by decide)
  · subst hr
    have hrej : (approvalStep ad req.requireApproval).2 = false :=
      approvalStep_not_rejected ad _ happ
    refine ⟨?_, ?_, ?_, ?_⟩
    · show deriveOverall (captionStep ad).1 (videoStep ad req.includeVideo).1
        (publishStep ad (approvalStep ad req.requireApproval).2).1
        (approvalStep ad req.requireApproval).2 = .completed_with_errors
      rw [hrej]
      simp [deriveOverall, captionStep, hcap]
    · show (captionStep ad).2.1 = none
      simp [captionStep, hcap]
    · intro hiv
      show (videoStep ad req.includeVideo).1 ≠ .skipped
      rw [hiv]
      exact videoStep_true_ne_skipped ad
    · show (publishStep ad (approvalStep ad req.requireApproval).2).1 ≠ .skipped
      rw [hrej]
      exact publishStep_false_ne_skipped ad

/-- Witness for the amended C3 at a concrete request with a failing caption
adapter and an approving gate. -/
theorem caption_failure_completed_with_errors_witness :
    adCaptionFail.caption = .error "caption backend down" ∧
    (reqApproval.requireApproval = false ∨ adCaptionFail.approval = .approved) ∧
    (normalRun adCaptionFail "run-c3a" reqApproval sampleVariant).steps.script_generation = .completed ∧
    executeWorkflow adCaptionFail "run-c3a" reqApproval =
      .ok (normalRun adCaptionFail "run-c3a" reqApproval sampleVariant) ∧
    ((normalRun adCaptionFail "run-c3a" reqApproval sampleVariant).overallStatus = .completed_with_errors ∧
      (normalRun adCaptionFail "run-c3a" reqApproval sampleVariant).results.caption = none ∧
      (reqApproval.includeVideo = true →
        (normalRun adCaptionFail "run-c3a" reqApproval sampleVariant).steps.video_generation ≠ .skipped) ∧
      (normalRun adCaptionFail "run-c3a" reqApproval sampleVariant).steps.publish ≠ .skipped) :=
  ⟨rfl, Or.inr rfl, rfl, rfl,
    caption_failure_completed_with_errors adCaptionFail "run-c3a" reqApproval _ _
      rfl (Or.inr rfl) rfl rfl⟩

/-- Claim C4: for every request with a non-empty topic, the orchestrator
returns a WorkflowRun for every combination of adapter outcomes — failures
of external calls are contained and never surface as an error result. -/
theorem orchestrator_total_on_valid_requests (ad : AdapterOutcomes) (runId : String)
    (req : WorkflowRequest) (h : req.topic ≠ "") :
    ∃ run, executeWorkflow ad runId req = .ok run :=
  executeWorkflow_ok_of_topic_ne ad runId req h

/-- Witness for C4 at a concrete request, with every adapter failing. -/
theorem orchestrator_total_on_valid_requests_witness :
    reqFull.topic ≠ "" ∧
    ∃ run, executeWorkflow adScriptFail "run-c4" reqFull = .ok run :=
  ⟨by decide, orchestrator_total_on_valid_requests adScriptFail "run-c4" reqFull (by decide)⟩

/-- Claim C5: a request whose topic is the empty string is rejected with a
ValidationError for every adapter outcome; no WorkflowRun is produced and
no step runs. -/
theorem empty_topic_rejected_before_any_step (ad : AdapterOutcomes) (runId : String)
    (p : Platform) (iv ra : Bool) :
    executeWorkflow ad runId
      { topic := "", platform := p, includeVideo := iv, requireApproval := ra } =
      .error .emptyTopic :=
  executeWorkflow_empty_topic ad runId p iv ra

/-- Claim C6: in every run the orchestrator returns, each output-producing
step is `completed` exactly when its results-bag field is populated, and a
`skipped` step leaves its field absent. -/
theorem step_status_matches_results_bag (ad : AdapterOutcomes) (runId : String)
    (req : WorkflowRequest) (run : WorkflowRun)
    (h : executeWorkflow ad runId req = .ok run) :
    ((run.steps.script_generation = .completed ↔ run.results.script.isSome = true) ∧
      (run.steps.caption_generation = .completed ↔ run.results.caption.isSome = true) ∧
      (run.steps.video_generation = .completed ↔ run.results.videoUrl.isSome = true) ∧
      (run.steps.publish = .completed ↔ run.results.publishId.isSome = true)) ∧
    ((run.steps.script_generation = .skipped → run.results.script = none) ∧
      (run.steps.caption_generation = .skipped → run.results.caption = none) ∧
      (run.steps.video_generation = .skipped → run.results.videoUrl = none) ∧
      (run.steps.publish = .skipped → run.results.publishId = none)) := by
  rcases executeWorkflow_ok_inv ad runId req run h with ⟨hr, _⟩ | ⟨v, vs, hsc, hr⟩
  · subst hr
    simp [failedScriptRun]
  · subst hr
    refine ⟨⟨?_, ?_, ?_, ?_⟩, ?_, ?_, ?_, ?_⟩
    · show StepStatus.completed = .completed ↔ (some v.text).isSome = true
      simp
    · exact captionStep_completed_iff ad
    · exact videoStep_completed_iff ad req.includeVideo
    · exact publishStep_completed_iff ad (approvalStep ad req.requireApproval).2
    · intro hsk
      exact absurd (show StepStatus.completed = .skipped from hsk) (by decide)
    · intro hsk
      exact absurd hsk (captionStep_ne_skipped ad)
    · exact videoStep_skipped_none ad req.includeVideo
    · exact publishStep_skipped_none ad (approvalStep ad req.requireApproval).2

/-- The run used by the C6 witness. -/
def runC6 : WorkflowRun := normalRun adAllOk "run-c6" reqFull sampleVariant

/-- Witness for C6 at a concrete all-success run. -/
theorem step_status_matches_results_bag_witness :
    executeWorkflow adAllOk "run-c6" reqFull = .ok runC6 ∧
    (((runC6.steps.script_generation = .completed ↔ runC6.results.script.isSome = true) ∧
      (runC6.steps.caption_generation = .completed ↔ runC6.results.caption.isSome = true) ∧
      (runC6.steps.video_generation = .completed ↔ runC6.results.videoUrl.isSome = true) ∧
      (runC6.steps.publish = .completed ↔ runC6.results.publishId.isSome = true)) ∧
    ((runC6.steps.script_generation = .skipped → runC6.results.script = none) ∧
      (runC6.steps.caption_generation = .skipped → runC6.results.caption = none) ∧
      (runC6.steps.video_generation = .skipped → runC6.results.videoUrl = none) ∧
      (runC6.steps.publish = .skipped → runC6.results.publishId = none))) :=
  ⟨rfl, step_status_matches_results_bag adAllOk "run-c6" reqFull runC6 rfl⟩

/-- Claim C7: a client submit call that omits the optional fields sends a
body with `include_video` and `require_approval` both defaulted to `true`,
and the submission is accepted exactly when the topic is non-empty. -/
theorem client_defaults_and_topic_requirement (topic : String) (ad : AdapterOutcomes)
    (runId : String) :
    (APIClient.executeWorkflow topic none none none).include_video = true ∧
    (APIClient.executeWorkflow topic none none none).require_approval = true ∧
    (submissionAccepted
        (submitWorkflow ad runId (APIClient.executeWorkflow topic none none none)) = true ↔
      topic ≠ "") := by
  refine ⟨rfl, rfl, ?_⟩
  show submissionAccepted
      (executeWorkflow ad runId
        { topic := topic, platform := .instagram, includeVideo := true, requireApproval := true }) =
      true ↔ topic ≠ ""
  constructor
  · intro hacc htop
    subst htop
    rw [executeWorkflow_empty_topic ad runId Platform.instagram true true] at hacc
    exact absurd hacc (by decide)
  · intro htop
    obtain ⟨run, hrun⟩ := executeWorkflow_ok_of_topic_ne ad runId
      { topic := topic, platform := .instagram, includeVideo := true, requireApproval := true } htop
    rw [hrun]
    rfl

/-- Witness for C7 at a concrete non-empty topic. -/
theorem client_defaults_and_topic_requirement_witness :
    (APIClient.executeWorkflow "Product Launch" none none none).include_video = true ∧
    (APIClient.executeWorkflow "Product Launch" none none none).require_approval = true ∧
    (submissionAccepted
        (submitWorkflow adAllOk "run-c7" (APIClient.executeWorkflow "Product Launch" none none none)) = true ↔
      ("Product Launch" : String) ≠ "") :=
  client_defaults_and_topic_requirement "Product Launch" adAllOk "run-c7"

/-- Counterexample to claim C8 as stated: `escapeHtml` serializes a
carriage return literally, and the textarea decode's input-stream
preprocessing normalizes it to a line feed, so the round trip fails on any
string containing CR. -/
theorem escapeHtml_roundTrip_counterexample :
    decodeHtml (escapeHtml "a\rb") = "a\nb" ∧ ("a\nb" : String) ≠ "a\rb" :=
  ⟨rfl, by decide⟩

/-- Claim C8 (amended): for every string without a carriage return and
without a NUL character, the decoding performed by the copy buttons inverts
`escapeHtml`; a string with CR comes back with CR/CRLF normalized to LF, so
on those inputs the copied text differs from the original. -/
theorem escapeHtml_copy_roundTrip (s : String)
    (h : ∀ c ∈ s.data, c ≠ '\r' ∧ c ≠ Char.ofNat 0) :
    decodeHtml (escapeHtml s) = s := by
  cases s with
  | mk data =>
    have hcr : '\r' ∉ data := fun hm => (h _ hm).1 rfl
    have hnul : Char.ofNat 0 ∉ data := fun hm => (h _ hm).2 rfl
    show String.mk (decodeHtmlList (escapeHtmlList data)) = String.mk data
    rw [decode_escape_list data hcr hnul]

/-- Witness for the amended C8 at a concrete CR-free, NUL-free string with
all three escaped characters. -/
theorem escapeHtml_copy_roundTrip_witness :
    (∀ c ∈ ("a<b & c>d" : String).data, c ≠ '\r' ∧ c ≠ Char.ofNat 0) ∧
    decodeHtml (escapeHtml "a<b & c>d") = "a<b & c>d" :=
  ⟨by decide, escapeHtml_copy_roundTrip "a<b & c>d" (by decide)⟩

/-- The error message of a failed request, `none` for a successful one. -/
def thrownMessage (e : Except String FetchResponse) : Option String :=
  match e with
  | .error m => some m
  | .ok _ => none

/-- The response used by the C9 counterexample: a non-ok response whose
body carries `detail = "Failed to fetch"`. -/
def resDetailFailedToFetch : FetchResponse :=
  { ok := false, status := 503, statusText := "Service Unavailable", detail := some "Failed to fetch" }

/-- Counterexample to claim C9 as stated: on a non-ok response whose
`detail` field is present and equal to `Failed to fetch`, the thrown
message is the cannot-connect help text, not the `detail` value. -/
theorem request_detail_claim_counterexample :
    resDetailFailedToFetch.ok = false ∧
    resDetailFailedToFetch.detail = some "Failed to fetch" ∧
    thrownMessage (APIClient.request (.success resDetailFailedToFetch)) = some cannotConnectMessage ∧
    cannotConnectMessage ≠ "Failed to fetch" :=
  ⟨rfl, rfl, rfl, by decide⟩

/-- Claim C9 (amended): on a non-ok response the thrown message is the
body's `detail` field when it is present and non-empty, otherwise the
`HTTP status: statusText` template; and any error whose message is exactly
`Failed to fetch` — whether from a rejected fetch or from such a `detail`
value — is replaced by the fixed cannot-connect help text. -/
theorem request_error_message_characterization :
    (∀ r : FetchResponse, r.ok = false →
      APIClient.request (.success r) =
        .error (if nonOkMessage r = "Failed to fetch" then cannotConnectMessage
                else nonOkMessage r)) ∧
    (∀ msg : String, APIClient.request (.networkError msg) =
      .error (if msg = "Failed to fetch" then cannotConnectMessage else msg)) := by
  constructor
  · intro r hr
    simp [APIClient.request, hr]
  · intro msg
    rfl

/-- The response used by the C9 witness: non-ok, no usable detail. -/
def resNoDetail : FetchResponse :=
  { ok := false, status := 404, statusText := "Not Found", detail := none }

/-- Witness for the amended C9 at a concrete non-ok response and a
concrete failed fetch. -/
theorem request_error_message_characterization_witness :
    resNoDetail.ok = false ∧
    APIClient.request (.success resNoDetail) =
      .error (if nonOkMessage resNoDetail = "Failed to fetch" then cannotConnectMessage
              else nonOkMessage resNoDetail) ∧
    APIClient.request (.networkError "Failed to fetch") =
      .error (if ("Failed to fetch" : String) = "Failed to fetch" then cannotConnectMessage
              else "Failed to fetch") :=
  ⟨rfl, request_error_message_characterization.1 resNoDetail rfl,
    request_error_message_characterization.2 "Failed to fetch"⟩

/-- Claim C10: when no stored user matches the given email/password pair,
`loginUser` returns null and leaves the whole localStorage state — the
token, session-user and remember entries included — unchanged. -/
theorem loginUser_failed_login_leaves_state (email password : String) (remember : Bool)
    (token : String) (st : LocalStorage)
    (h : st.aisf_users.find? (fun u => u.email == email && u.password == password) = none) :
    loginUser email password remember token st = (none, st) := by
  unfold loginUser
  rw [h]

/-- The store used by the C10 witness: one registered user. -/
def sampleStore : LocalStorage :=
  { aisf_users := [{ id := "user_1"
                     email := "demo@example.com"
                     password := "password123"
                     fullName := "Demo User"
                     plan := "free"
                     createdAt := "2025-01-01"
                     videosGenerated := some 2
                     scriptsGenerated := some 3 }] }

/-- Witness for C10 at a concrete store and a non-matching email. -/
theorem loginUser_failed_login_leaves_state_witness :
    sampleStore.aisf_users.find?
        (fun u => u.email == "other@example.com" && u.password == "password123") = none ∧
    loginUser "other@example.com" "password123" true "tok-1" sampleStore = (none, sampleStore) :=
  ⟨rfl, loginUser_failed_login_leaves_state "other@example.com" "password123" true "tok-1"
    sampleStore rfl⟩
